import Mathlib

/-!
Shallow embedding of the container mapping/caching core of
`mcp_docker_bridge` (files `shared/constants.py`, `shared/schemas.py`,
`shared/docker_client.py`, `shared/context.py`), together with proofs
about the spec's claims over that embedding.

Modelling conventions:
* Python `dict[str, V]` used as a cache is modelled extensionally as a
  function `String → Option V` (`PyDict`); `d.get(k)` is application,
  `d[k] = v` is a pointwise update, `d.pop(k, None)` sets the key to
  `none`.
* Raw Docker JSON sections are modelled as structures whose fields are
  `Option`-valued: `none` models an absent key, so `section.get(key)`
  is the field itself and `section.get(key, default)` is `Option.getD`.
* Python `datetime` values are `PyDatetime`: a wall-clock value plus an
  optional UTC offset (`none` models a timezone-naive datetime).
* `datetime.fromisoformat` and `datetime.now(UTC)` are external to the
  repository; the embedding is parameterised by a parsing function
  `fromisoformat : String → Option PyDatetime` (`none` models a raised
  `ValueError`) and by the current instant `now`.
* Raised exceptions are modelled with `Except String`, carrying the
  message the source formats into the raised `RuntimeError` (internal
  exception classes such as `ValueError` are carried by class name).
-/

set_option autoImplicit false

namespace DockerBridge

/-! ### Python dictionaries (extensional model) -/

def PyDict (α : Type) : Type := String → Option α

def dget {α : Type} (d : PyDict α) (k : String) : Option α := d k

def dset {α : Type} (d : PyDict α) (k : String) (v : α) : PyDict α :=
  fun k' => if k' = k then some v else d k'

def dpop {α : Type} (d : PyDict α) (k : String) : PyDict α :=
  fun k' => if k' = k then none else d k'

def dempty {α : Type} : PyDict α := fun _ => none

/-! ### Python datetimes and raw timestamp values -/

/-- Model of a Python `datetime`: a wall-clock value (seconds) together
with an optional UTC offset; `tz = none` models a timezone-naive
datetime, `tz = some 0` a UTC-aware one. -/
structure PyDatetime where
  wall : Int
  tz : Option Int
  deriving DecidableEq

/-- Raw timestamp value found in the daemon's JSON: an ISO-8601 string
or a Unix epoch number (`docker_client.py` checks `isinstance(value,
str)` and `isinstance(value, int | float)`). -/
inductive RawTime where
  | str (s : String)
  | num (n : Int)
  deriving DecidableEq

/-- Model of `datetime.fromtimestamp(value, UTC)`. -/
def fromtimestamp (n : Int) : PyDatetime := { wall := n, tz := some 0 }

/-- Python truthiness of `state.get(key)`'s result (`if datetime_value:`
in `_parse_state_datetime`): `None`, the empty string and the number
zero are falsy. -/
def pyTruthyTime : Option RawTime → Bool
  | none => false
  | some (RawTime.str s) => s ≠ ""
  | some (RawTime.num n) => n ≠ 0

/-- Python `s.endswith('Z')` for the single character `c`. -/
def pyEndsWithChar (s : String) (c : Char) : Bool :=
  s.data.reverse.head? = some c

/-- Python `s.rstrip('Z')`: strips every trailing occurrence of `c`. -/
def pyRstrip (s : String) (c : Char) : String :=
  String.mk ((s.data.reverse.dropWhile (fun a => a == c)).reverse)

/-- Dropping the final character of a string; used to phrase the spec's
reference computation "replace the trailing `Z` with `+00:00`". -/
def pyDropLast (s : String) : String := String.mk s.data.dropLast

/-! ### Embedding of `DockerClientManager._parse_iso_datetime` and
`_parse_datetime_value` (`docker_client.py`, lines 194-237) -/

/-- Embedding of `_parse_iso_datetime(iso_string)`: a trailing `Z` is replaced (via
`rstrip('Z') + '+00:00'`) before parsing; a timezone-naive parse result
is made UTC-aware; a `ValueError` from either `fromisoformat` call
(modelled by `none`) yields the current instant. -/
def parse_iso_datetime (fromisoformat : String → Option PyDatetime)
    (now : PyDatetime) (iso_string : String) : PyDatetime :=
  if pyEndsWithChar iso_string 'Z' then
    match fromisoformat (pyRstrip iso_string 'Z' ++ "+00:00") with
    | some dt => dt
    | none => now
  else
    match fromisoformat iso_string with
    | some parsed_dt =>
        if parsed_dt.tz = none then { parsed_dt with tz := some 0 }
        else parsed_dt
    | none => now

/-- Embedding of `_parse_datetime_value(value)`: strings are parsed as ISO-8601,
strictly positive numbers as Unix epoch seconds, anything else falls
back to `datetime.now(UTC)`. -/
def parse_datetime_value (fromisoformat : String → Option PyDatetime)
    (now : PyDatetime) (value : Option RawTime) : PyDatetime :=
  match value with
  | some (RawTime.str s) => parse_iso_datetime fromisoformat now s
  | some (RawTime.num n) => if n > 0 then fromtimestamp n else now
  | none => now

/-! ### Constants (`constants.py`) -/

/-- Embedding of `DockerPortType` (`constants.py`): the two admissible port protocol
values. -/
inductive DockerPortType where
  | tcp
  | udp
  deriving DecidableEq

/-- Model of the enum call `DockerPortType(value)`: `none` models the
`ValueError` raised for a value that is not a member. -/
def DockerPortType.ofString? : String → Option DockerPortType
  | "tcp" => some DockerPortType.tcp
  | "udp" => some DockerPortType.udp
  | _ => none

/-- Embedding of `DockerContainerState` (`constants.py`). -/
inductive DockerContainerState where
  | restarting
  | running
  | paused
  | exited
  | created
  | removing
  | dead
  deriving DecidableEq

/-- The `.value` string of a `DockerContainerState` member. -/
def DockerContainerState.value : DockerContainerState → String
  | DockerContainerState.restarting => "restarting"
  | DockerContainerState.running => "running"
  | DockerContainerState.paused => "paused"
  | DockerContainerState.exited => "exited"
  | DockerContainerState.created => "created"
  | DockerContainerState.removing => "removing"
  | DockerContainerState.dead => "dead"

/-! ### Typed records (`schemas.py`) -/

/-- Embedding of `ContainerPort` (`schemas.py`). -/
structure ContainerPort where
  private_port : Int
  public_port : Option Int := none
  type : DockerPortType
  ip : Option String := none
  deriving DecidableEq

/-- Embedding of `ContainerInfo` (`schemas.py`): the summary record returned by
`list_containers`. -/
structure ContainerInfo where
  id : String
  names : List String
  image : String
  state : String
  created_at : PyDatetime
  started_at : Option PyDatetime := none
  finished_at : Option PyDatetime := none
  ports : List ContainerPort := []
  deriving DecidableEq

/-- Embedding of `RestartPolicy` (`schemas.py`). -/
structure RestartPolicy where
  name : String := "no"
  maximum_retry_count : Int := 0
  deriving DecidableEq

/-- Embedding of `Mount` (`schemas.py`). -/
structure Mount where
  type : String
  source : String
  destination : String
  mode : String := "rw"
  rw : Bool := true
  propagation : String := "rprivate"
  deriving DecidableEq

/-- Embedding of `NetworkEndpoint` (`schemas.py`). -/
structure NetworkEndpoint where
  network_id : String
  endpoint_id : String
  gateway : Option String := none
  ip_address : Option String := none
  ip_prefix_len : Option Int := none
  ipv6_gateway : Option String := none
  global_ipv6_address : Option String := none
  global_ipv6_prefix_len : Option Int := none
  mac_address : Option String := none
  deriving DecidableEq

/-- Embedding of `HealthCheck` (`schemas.py`). -/
structure HealthCheck where
  test : Option (List String) := none
  interval : Option Int := none
  timeout : Option Int := none
  retries : Option Int := none
  start_period : Option Int := none
  deriving DecidableEq

/-- Embedding of `ResourceLimits` (`schemas.py`). -/
structure ResourceLimits where
  cpu_shares : Option Int := none
  cpu_period : Option Int := none
  cpu_quota : Option Int := none
  cpuset_cpus : Option String := none
  cpuset_mems : Option String := none
  memory : Option Int := none
  memory_swap : Option Int := none
  memory_reservation : Option Int := none
  kernel_memory : Option Int := none
  blkio_weight : Option Int := none
  pids_limit : Option Int := none
  deriving DecidableEq

/-- Embedding of `DetailedContainerInfo` (`schemas.py`): the Python class extends
`ContainerInfo` by inheritance; the embedding flattens the inherited
fields into one structure.  Passthrough payload fields (`exposed_ports`,
`volumes`, `log_config`, `labels`) are modelled with fixed leaf types:
the mapping layer copies them verbatim and never inspects them.  Field
defaults mirror the pydantic field defaults. -/
structure DetailedContainerInfo where
  id : String
  names : List String
  image : String
  state : String
  created_at : PyDatetime
  started_at : Option PyDatetime := none
  finished_at : Option PyDatetime := none
  ports : List ContainerPort := []
  image_id : String
  status : String
  entrypoint : Option (List String) := none
  cmd : Option (List String) := none
  working_dir : Option String := none
  user : Option String := none
  hostname : Option String := none
  domainname : Option String := none
  env : List String := []
  labels : List (String × String) := []
  exit_code : Option Int := none
  error : Option String := none
  running : Bool := false
  paused : Bool := false
  restarting : Bool := false
  pid : Option Int := none
  network_mode : String := "default"
  exposed_ports : List (String × Unit) := []
  networks : List (String × NetworkEndpoint) := []
  mounts : List Mount := []
  volumes : List (String × Unit) := []
  restart_policy : RestartPolicy := {}
  resources : ResourceLimits := {}
  privileged : Bool := false
  cap_add : List String := []
  cap_drop : List String := []
  health_check : Option HealthCheck := none
  log_config : List (String × String) := []
  tty : Bool := false
  stdin_open : Bool := false
  extra_hosts : List String := []
  group_add : List String := []
  security_opt : List String := []
  deriving DecidableEq

/-! ### Filter builder (`schemas.py`, `ListContainersFilters`) -/

/-- The `label` field of `ListContainersFilters` admits a single string
or a list of strings (`str | list[str]`). -/
inductive LabelFilter where
  | single (s : String)
  | multi (l : List String)
  deriving DecidableEq

/-- Embedding of `ListContainersFilters` (`schemas.py`): every field independently
optional. -/
structure ListContainersFilters where
  exited : Option Int := none
  status : Option DockerContainerState := none
  label : Option LabelFilter := none
  id : Option String := none
  name : Option String := none
  ancestor : Option String := none
  before : Option String := none
  since : Option String := none
  deriving DecidableEq

/-- A value appearing in `self.model_dump(exclude_none=True)`: an int,
an enum member, a string, or a list of strings. -/
inductive DumpValue where
  | intVal (n : Int)
  | statusVal (s : DockerContainerState)
  | strVal (s : String)
  | listVal (l : List String)
  deriving DecidableEq

/-- A value of the built Docker filters mapping. -/
inductive DockerFilterValue where
  | intVal (n : Int)
  | strVal (s : String)
  | listVal (l : List String)
  deriving DecidableEq

/-- Result of `self.model_dump(exclude_none=True)` on a `ListContainersFilters`:
the set fields in declaration order, paired with their field names. -/
def ListContainersFilters.model_dump (f : ListContainersFilters) :
    List (String × DumpValue) :=
  (match f.exited with
    | some n => [("exited", DumpValue.intVal n)]
    | none => []) ++
  (match f.status with
    | some st => [("status", DumpValue.statusVal st)]
    | none => []) ++
  (match f.label with
    | some (LabelFilter.single s) => [("label", DumpValue.strVal s)]
    | some (LabelFilter.multi l) => [("label", DumpValue.listVal l)]
    | none => []) ++
  (match f.id with
    | some s => [("id", DumpValue.strVal s)]
    | none => []) ++
  (match f.name with
    | some s => [("name", DumpValue.strVal s)]
    | none => []) ++
  (match f.ancestor with
    | some s => [("ancestor", DumpValue.strVal s)]
    | none => []) ++
  (match f.before with
    | some s => [("before", DumpValue.strVal s)]
    | none => []) ++
  (match f.since with
    | some s => [("since", DumpValue.strVal s)]
    | none => [])

/-- Model of `DockerContainerFilterKey(field_name)`: `some` of the key's
string when the name is a member of the filter-key enum, else `none`
(the raised `ValueError`, which the loop turns into a `continue`). -/
def docker_filter_key? (field_name : String) : Option String :=
  if field_name ∈ ["exited", "status", "label", "id", "name",
      "ancestor", "before", "since"] then
    some field_name
  else
    none

/-- Passthrough of a dumped value into the filters mapping (the final
`else` branch of the loop); a `StrEnum` member stored directly is its
underlying string. -/
def DumpValue.toFilterValue : DumpValue → DockerFilterValue
  | DumpValue.intVal n => DockerFilterValue.intVal n
  | DumpValue.statusVal s => DockerFilterValue.strVal s.value
  | DumpValue.strVal s => DockerFilterValue.strVal s
  | DumpValue.listVal l => DockerFilterValue.listVal l

/-- One iteration of the `for field_name, field_value in data.items()`
loop of `ListContainersFilters.to_docker_filters`: `none` models the
`continue` taken for an unknown field name; `status` emits the enum's
`.value` (`hasattr(field_value, 'value')` holds exactly for enum
members); `label` always emits a list, wrapping a lone string.  (The
`label` arm pairing a non-string scalar never arises from a dump and
is mapped to an empty list.) -/
def to_docker_filters_entry (field_name : String)
    (field_value : DumpValue) : Option (String × DockerFilterValue) :=
  match docker_filter_key? field_name with
  | none => none
  | some docker_key =>
    some
      (if field_name = "status" then
        match field_value with
        | DumpValue.statusVal st =>
            (docker_key, DockerFilterValue.strVal st.value)
        | v => (docker_key, v.toFilterValue)
      else if field_name = "label" then
        (docker_key,
          match field_value with
          | DumpValue.listVal l => DockerFilterValue.listVal l
          | DumpValue.strVal s => DockerFilterValue.listVal [s]
          | DumpValue.statusVal s => DockerFilterValue.listVal [s.value]
          | DumpValue.intVal _ => DockerFilterValue.listVal [])
      else
        (docker_key, field_value.toFilterValue))

/-- The whole loop: each dumped pair contributes its entry (or nothing,
when skipped) to the filters mapping, in order. -/
def to_docker_filters_loop :
    List (String × DumpValue) → List (String × DockerFilterValue)
  | [] => []
  | (field_name, field_value) :: rest =>
    (to_docker_filters_entry field_name field_value).toList
      ++ to_docker_filters_loop rest

/-- Embedding of `ListContainersFilters.to_docker_filters` (`schemas.py`, lines
94-121). -/
def ListContainersFilters.to_docker_filters (f : ListContainersFilters) :
    List (String × DockerFilterValue) :=
  to_docker_filters_loop f.model_dump

/-! ### Listing parameters (`schemas.py`, `ListContainersParams`) -/

/-- Embedding of `ListContainersParams` (`schemas.py`). -/
structure ListContainersParams where
  all : Bool := false
  since : Option String := none
  before : Option String := none
  limit : Option Int := none
  filters : Option ListContainersFilters := none
  sparse : Bool := false
  ignore_removed : Bool := false
  deriving DecidableEq

/-- The keyword arguments handed to `client.containers.list(**kwargs)`;
`Option` fields model keys excluded by `exclude_none=True`. -/
structure DockerListKwargs where
  all : Bool
  since : Option String
  before : Option String
  limit : Option Int
  filters : Option (List (String × DockerFilterValue))
  sparse : Bool
  ignore_removed : Bool
  deriving DecidableEq

/-- Embedding of `ListContainersParams.model_dump_docker_api` (`schemas.py`, lines
162-173): a plain dump with the `filters` entry converted via
`to_docker_filters`. -/
def ListContainersParams.model_dump_docker_api (p : ListContainersParams) :
    DockerListKwargs :=
  { all := p.all
    since := p.since
    before := p.before
    limit := p.limit
    filters := p.filters.map ListContainersFilters.to_docker_filters
    sparse := p.sparse
    ignore_removed := p.ignore_removed }

/-! ### Raw daemon JSON (input to the record mapper) -/

/-- A raw port entry from the daemon's `Ports` array; `none` models an
absent key. -/
structure RawPort where
  ip : Option String := none
  private_port : Option Int := none
  public_port : Option Int := none
  type : Option String := none
  deriving DecidableEq

/-- The raw `State` section of an inspect payload; `none` models an
absent key, so the empty structure `{}` models the empty dict. -/
structure RawState where
  status : Option String := none
  started_at : Option RawTime := none
  finished_at : Option RawTime := none
  exit_code : Option Int := none
  error : Option String := none
  running : Option Bool := none
  paused : Option Bool := none
  restarting : Option Bool := none
  pid : Option Int := none
  deriving DecidableEq

/-- The value under the top-level `State` key: the list endpoint may
report a bare status string while the inspect endpoint reports a
dictionary (`_extract_state_string` checks `isinstance(state_data,
dict)`). -/
inductive RawStateVal where
  | dict (d : RawState)
  | scalar (s : String)
  deriving DecidableEq

/-- The two keys `_parse_state_datetime` is invoked with. -/
inductive StateTimeKey where
  | started_at
  | finished_at
  deriving DecidableEq

/-- Lookup `state_data.get(key)` for a state-timestamp key. -/
def RawState.getTime (d : RawState) : StateTimeKey → Option RawTime
  | StateTimeKey.started_at => d.started_at
  | StateTimeKey.finished_at => d.finished_at

/-- The raw `RestartPolicy` section of `HostConfig`. -/
structure RawRestartPolicy where
  name : Option String := none
  maximum_retry_count : Option Int := none
  deriving DecidableEq

/-- The raw `Healthcheck` section of `Config`; an absent key and a
falsy (empty) dict are both modelled by passing `none` to the parser. -/
structure RawHealthCheck where
  test : Option (List String) := none
  interval : Option Int := none
  timeout : Option Int := none
  retries : Option Int := none
  start_period : Option Int := none
  deriving DecidableEq

/-- The raw `Config` section of an inspect payload. -/
structure RawConfig where
  entrypoint : Option (List String) := none
  cmd : Option (List String) := none
  working_dir : Option String := none
  user : Option String := none
  hostname : Option String := none
  domainname : Option String := none
  env : Option (List String) := none
  labels : Option (List (String × String)) := none
  exposed_ports : Option (List (String × Unit)) := none
  volumes : Option (List (String × Unit)) := none
  tty : Option Bool := none
  open_stdin : Option Bool := none
  healthcheck : Option RawHealthCheck := none
  deriving DecidableEq

/-- The raw `HostConfig` section of an inspect payload. -/
structure RawHostConfig where
  restart_policy : Option RawRestartPolicy := none
  network_mode : Option String := none
  privileged : Option Bool := none
  cap_add : Option (List String) := none
  cap_drop : Option (List String) := none
  extra_hosts : Option (List String) := none
  group_add : Option (List String) := none
  security_opt : Option (List String) := none
  log_config : Option (List (String × String)) := none
  cpu_shares : Option Int := none
  cpu_period : Option Int := none
  cpu_quota : Option Int := none
  cpuset_cpus : Option String := none
  cpuset_mems : Option String := none
  memory : Option Int := none
  memory_swap : Option Int := none
  memory_reservation : Option Int := none
  kernel_memory : Option Int := none
  blkio_weight : Option Int := none
  pids_limit : Option Int := none
  deriving DecidableEq

/-- A raw network endpoint dictionary under `NetworkSettings.Networks`. -/
structure RawNetworkEndpoint where
  network_id : Option String := none
  endpoint_id : Option String := none
  gateway : Option String := none
  ip_address : Option String := none
  ip_prefix_len : Option Int := none
  ipv6_gateway : Option String := none
  global_ipv6_address : Option String := none
  global_ipv6_prefix_len : Option Int := none
  mac_address : Option String := none
  deriving DecidableEq

/-- A value of the `Networks` mapping: `_parse_networks` keeps only the
values that are dictionaries (`isinstance(data, dict)`). -/
inductive RawNetworkData where
  | dict (d : RawNetworkEndpoint)
  | nondict
  deriving DecidableEq

/-- The raw `NetworkSettings` section. -/
structure RawNetworkSettings where
  networks : Option (List (String × RawNetworkData)) := none
  deriving DecidableEq

/-- A raw mount dictionary from the top-level `Mounts` array. -/
structure RawMountDict where
  type : Option String := none
  source : Option String := none
  destination : Option String := none
  mode : Option String := none
  rw : Option Bool := none
  propagation : Option String := none
  deriving DecidableEq

/-- An entry of the `Mounts` array: `_parse_mounts` keeps only the
entries that are dictionaries. -/
inductive RawMountEntry where
  | dict (m : RawMountDict)
  | nondict
  deriving DecidableEq

/-- The attribute mapping `container.attrs` of a docker-py container
object; `none` models an absent key. -/
structure RawAttrs where
  image : Option String := none
  created : Option RawTime := none
  ports : Option (List RawPort) := none
  state : Option RawStateVal := none
  config : Option RawConfig := none
  host_config : Option RawHostConfig := none
  network_settings : Option RawNetworkSettings := none
  mounts : Option (List RawMountEntry) := none
  deriving DecidableEq

/-- A docker-py container object as consumed by the mapping layer:
its `id`, its optional `name` attribute and its attribute mapping. -/
structure RawContainer where
  id : String
  name : Option String := none
  attrs : RawAttrs := {}
  deriving DecidableEq

/-! ### Record mapper (`docker_client.py`, lines 108-237 and 377-516) -/

/-- Embedding of `DockerClientManager._parse_ports` (lines 164-185): every entry is
converted in order; `PrivatePort` defaults to `0`, `Type` defaults to
`tcp`; `DockerPortType(value)` raises `ValueError` for a value that is
not a member, aborting the whole conversion. -/
def parse_ports : List RawPort → Except String (List ContainerPort)
  | [] => Except.ok []
  | port_data :: rest =>
    match (match port_data.type with
           | none => Except.ok DockerPortType.tcp
           | some s =>
             match DockerPortType.ofString? s with
             | some t => Except.ok t
             | none => Except.error "ValueError") with
    | Except.error e => Except.error e
    | Except.ok t =>
      match parse_ports rest with
      | Except.error e => Except.error e
      | Except.ok ports =>
        Except.ok
          ({ private_port := port_data.private_port.getD 0
             public_port := port_data.public_port
             type := t
             ip := port_data.ip } :: ports)

/-- Embedding of `DockerClientManager._extract_state_string` (lines 187-192): a dict
yields its `Status` field (default empty), any other value is
stringified unless falsy.  (Only string scalars occur in the model; for
a string `str(s)` is `s` itself, and the falsy case is the empty
string, for which the two branches agree.) -/
def extract_state_string (state_data : RawStateVal) : String :=
  match state_data with
  | RawStateVal.dict d => d.status.getD ""
  | RawStateVal.scalar s => if s = "" then "" else s

/-- Embedding of `DockerClientManager._parse_state_datetime` (lines 194-204): a falsy
value (`None`, empty string, zero) yields `None`; otherwise the value is
parsed via `_parse_datetime_value`. -/
def parse_state_datetime (fromisoformat : String → Option PyDatetime)
    (now : PyDatetime) (state_data : RawState) (key : StateTimeKey) :
    Option PyDatetime :=
  let datetime_value := state_data.getTime key
  if pyTruthyTime datetime_value then
    some (parse_datetime_value fromisoformat now datetime_value)
  else
    none

/-- The dictionary built by `DockerClientManager._extract_container_data`
(lines 108-130): it always carries all six keys, so the fields are not
optional. -/
structure ExtractedContainerData where
  id : String
  names : List String
  image : String
  created : RawTime
  ports : List RawPort
  state : RawStateVal
  deriving DecidableEq

/-- Embedding of `DockerClientManager._extract_container_data` (lines 108-130):
`names` is `[container.name]` when the attribute exists and is truthy,
else `[]`; the remaining entries come from `container.attrs` with
defaults `''`, `0`, `[]`, `{}`. -/
def extract_container_data (container : RawContainer) :
    ExtractedContainerData :=
  let container_names : List String :=
    match container.name with
    | some n => if n = "" then [] else [n]
    | none => []
  { id := container.id
    names := container_names
    image := container.attrs.image.getD ""
    created := container.attrs.created.getD (RawTime.num 0)
    ports := container.attrs.ports.getD []
    state := container.attrs.state.getD (RawStateVal.dict {}) }

/-- Embedding of `DockerClientManager._convert_container_data` (lines 132-162).  The
`.get` defaults repeated there never fire because the input dictionary
always carries all six keys.  A scalar `State` value makes the
`state_data.get(...)` calls inside `_parse_state_datetime` raise
(`AttributeError`), after the ports have been parsed. -/
def convert_container_data (fromisoformat : String → Option PyDatetime)
    (now : PyDatetime) (container_data : ExtractedContainerData) :
    Except String ContainerInfo := do
  let ports ← parse_ports container_data.ports
  let state_string := extract_state_string container_data.state
  let state_data : RawState ←
    match container_data.state with
    | RawStateVal.dict d => Except.ok d
    | RawStateVal.scalar _ => Except.error "AttributeError"
  let created_at :=
    parse_datetime_value fromisoformat now (some container_data.created)
  let started_at :=
    parse_state_datetime fromisoformat now state_data
      StateTimeKey.started_at
  let finished_at :=
    parse_state_datetime fromisoformat now state_data
      StateTimeKey.finished_at
  Except.ok
    { id := container_data.id
      names := container_data.names
      image := container_data.image
      state := state_string
      created_at := created_at
      started_at := started_at
      finished_at := finished_at
      ports := ports }

/-- Embedding of `DockerClientManager._parse_networks` (lines 377-409): keeps the
dictionary-valued entries, building a `NetworkEndpoint` with documented
defaults. -/
def parse_networks (networks : List (String × RawNetworkData)) :
    List (String × NetworkEndpoint) :=
  networks.filterMap (fun p =>
    match p.2 with
    | RawNetworkData.dict data =>
      some (p.1,
        { network_id := data.network_id.getD ""
          endpoint_id := data.endpoint_id.getD ""
          gateway := data.gateway
          ip_address := data.ip_address
          ip_prefix_len := data.ip_prefix_len
          ipv6_gateway := data.ipv6_gateway
          global_ipv6_address := data.global_ipv6_address
          global_ipv6_prefix_len := data.global_ipv6_prefix_len
          mac_address := data.mac_address })
    | RawNetworkData.nondict => none)

/-- Embedding of `DockerClientManager._parse_mounts` (lines 411-434). -/
def parse_mounts (mounts : List RawMountEntry) : List Mount :=
  mounts.filterMap (fun entry =>
    match entry with
    | RawMountEntry.dict mount =>
      some
        { type := mount.type.getD "bind"
          source := mount.source.getD ""
          destination := mount.destination.getD ""
          mode := mount.mode.getD "rw"
          rw := mount.rw.getD true
          propagation := mount.propagation.getD "rprivate" }
    | RawMountEntry.nondict => none)

/-- Embedding of `DockerClientManager._parse_restart_policy` (lines 436-449). -/
def parse_restart_policy (policy : RawRestartPolicy) : RestartPolicy :=
  { name := policy.name.getD "no"
    maximum_retry_count := policy.maximum_retry_count.getD 0 }

/-- Embedding of `DockerClientManager._parse_resources` (lines 451-491). -/
def parse_resources (host_config : RawHostConfig) : ResourceLimits :=
  { cpu_shares := host_config.cpu_shares
    cpu_period := host_config.cpu_period
    cpu_quota := host_config.cpu_quota
    cpuset_cpus := host_config.cpuset_cpus
    cpuset_mems := host_config.cpuset_mems
    memory := host_config.memory
    memory_swap := host_config.memory_swap
    memory_reservation := host_config.memory_reservation
    kernel_memory := host_config.kernel_memory
    blkio_weight := host_config.blkio_weight
    pids_limit := host_config.pids_limit }

/-- Embedding of `DockerClientManager._parse_health_check` (lines 493-516): a falsy
input (`None` or the empty dict, both modelled by `none`) yields
`None`. -/
def parse_health_check (health_check : Option RawHealthCheck) :
    Option HealthCheck :=
  match health_check with
  | none => none
  | some hc =>
    some
      { test := hc.test
        interval := hc.interval
        timeout := hc.timeout
        retries := hc.retries
        start_period := hc.start_period }

/-- The `DetailedContainerInfo(...)` construction inside
`DockerClientManager.get_container` (lines 254-369).  Mirrors the
source argument for argument; note that `started_at` and `finished_at`
are computed with `_parse_datetime_value` directly (lines 279-284), not
with `_parse_state_datetime`, so they are always populated.  A scalar
`State` value makes the `state.get(...)` calls raise; the `Error` field
uses `state.get(ERROR) or None`, and the five `or []` fields coincide
with `Option.getD []` because `[] or []` is `[]`. -/
def build_detailed_container_info
    (fromisoformat : String → Option PyDatetime) (now : PyDatetime)
    (container : RawContainer) : Except String DetailedContainerInfo := do
  let attrs := container.attrs
  let config := attrs.config.getD {}
  let host_config := attrs.host_config.getD {}
  let state : RawState ←
    match attrs.state.getD (RawStateVal.dict {}) with
    | RawStateVal.dict d => Except.ok d
    | RawStateVal.scalar _ => Except.error "AttributeError"
  let network_settings := attrs.network_settings.getD {}
  let basic_data := extract_container_data container
  let ports ← parse_ports basic_data.ports
  Except.ok
    { id := basic_data.id
      names := basic_data.names
      image := basic_data.image
      created_at :=
        parse_datetime_value fromisoformat now (some basic_data.created)
      state := extract_state_string (RawStateVal.dict state)
      started_at :=
        some (parse_datetime_value fromisoformat now state.started_at)
      finished_at :=
        some (parse_datetime_value fromisoformat now state.finished_at)
      ports := ports
      image_id := attrs.image.getD ""
      status := state.status.getD "unknown"
      entrypoint := config.entrypoint
      cmd := config.cmd
      working_dir := config.working_dir
      user := config.user
      hostname := config.hostname
      domainname := config.domainname
      env := config.env.getD []
      labels := config.labels.getD []
      exit_code := state.exit_code
      error := match state.error with
        | some "" => none
        | v => v
      running := state.running.getD false
      paused := state.paused.getD false
      restarting := state.restarting.getD false
      pid := state.pid
      network_mode := host_config.network_mode.getD "default"
      exposed_ports := config.exposed_ports.getD []
      networks := parse_networks (network_settings.networks.getD [])
      mounts := parse_mounts (attrs.mounts.getD [])
      volumes := config.volumes.getD []
      restart_policy :=
        parse_restart_policy (host_config.restart_policy.getD {})
      resources := parse_resources host_config
      privileged := host_config.privileged.getD false
      cap_add := host_config.cap_add.getD []
      cap_drop := host_config.cap_drop.getD []
      health_check := parse_health_check config.healthcheck
      log_config := host_config.log_config.getD []
      tty := config.tty.getD false
      stdin_open := config.open_stdin.getD false
      extra_hosts := host_config.extra_hosts.getD []
      group_add := host_config.group_add.getD []
      security_opt := host_config.security_opt.getD [] }

/-! ### Daemon client facade (`docker_client.py`, lines 36-106, 239-375)

The connection handle `self._client` is modelled as `Option Unit`:
`none` is the Disconnected state.  The remote daemon is an oracle
supplied as a parameter; each facade operation also returns the list of
remote calls it performed. -/

/-- The combined outcome of `docker.from_env()` followed by
`self._client.ping()` during `connect()`: the environment client
construction may raise, or the liveness probe may raise, or both
succeed (`DockerException` messages are carried as strings). -/
inductive ConnectAttempt where
  | envFailure (msg : String)
  | pingFailure (msg : String)
  | success
  deriving DecidableEq

/-- Embedding of `DockerClientManager.connect` (lines 42-54).  Returns the new value
of `self._client` together with the message of the propagated exception,
if any.  If already connected, an immediate no-op.  Otherwise
`self._client` is assigned the `from_env()` result *before* the ping, so
a failing ping leaves the handle set. -/
def connect (client : Option Unit) (attempt : ConnectAttempt) :
    Option Unit × Option String :=
  match client with
  | some c => (some c, none)
  | none =>
    match attempt with
    | ConnectAttempt.envFailure m => (none, some m)
    | ConnectAttempt.pingFailure m => (some (), some m)
    | ConnectAttempt.success => (some (), none)

/-- Embedding of `DockerClientManager.disconnect` (lines 56-66): teardown errors are
swallowed and `self._client` is reset regardless. -/
def disconnect (client : Option Unit) : Option Unit :=
  match client with
  | some _ => none
  | none => none

/-- Embedding of `DockerClientManager._is_connected` (lines 68-71). -/
def is_connected (client : Option Unit) : Bool :=
  client.isSome

/-- The outcome of the remote inspect call
`client.containers.get(container_id)`. -/
inductive InspectOutcome where
  | found (container : RawContainer)
  | notFound
  | failure (msg : String)
  deriving DecidableEq

/-- Oracle for the remote daemon: the result of the single inspect call
and of the single listing call (`Except.error` models a raised
exception whose message is carried). -/
structure Daemon where
  inspect : String → InspectOutcome
  listing : DockerListKwargs → Except String (List RawContainer)

/-- A remote round trip performed by a facade operation. -/
inductive RemoteCall where
  | listCall (kwargs : DockerListKwargs)
  | getCall (container_id : String)
  deriving DecidableEq

/-- Embedding of `DockerClientManager.list_containers` (lines 83-106) paired with
the remote calls it performs.  The kwargs are computed before the
`self.client` property is read; that property raises when
`self._client` is `None`, before any remote call.  Exceptions from the
remote call or from the per-record conversion propagate unwrapped. -/
def list_containers (fromisoformat : String → Option PyDatetime)
    (now : PyDatetime) (client : Option Unit) (daemon : Daemon)
    (params : Option ListContainersParams) :
    Except String (List ContainerInfo) × List RemoteCall :=
  let params := params.getD {}
  let kwargs := params.model_dump_docker_api
  match client with
  | none =>
    (Except.error "Docker client is not connected. Call connect() first.",
      [])
  | some _ =>
    match daemon.listing kwargs with
    | Except.error m => (Except.error m, [RemoteCall.listCall kwargs])
    | Except.ok containers =>
      (containers.mapM (fun container =>
          convert_container_data fromisoformat now
            (extract_container_data container)),
        [RemoteCall.listCall kwargs])

/-- Embedding of `DockerClientManager.get_container` (lines 239-375) paired with the
remote calls it performs.  A missing connection fails before any remote
call; a daemon not-found outcome is rewrapped with the identifier in
the message; any other exception (daemon-side or raised while mapping)
is rewrapped as `Failed to get container information: ...`. -/
def get_container (fromisoformat : String → Option PyDatetime)
    (now : PyDatetime) (client : Option Unit) (daemon : Daemon)
    (container_id : String) :
    Except String DetailedContainerInfo × List RemoteCall :=
  match client with
  | none => (Except.error "Docker client is not connected", [])
  | some _ =>
    match daemon.inspect container_id with
    | InspectOutcome.notFound =>
      (Except.error ("Container not found: " ++ container_id),
        [RemoteCall.getCall container_id])
    | InspectOutcome.failure m =>
      (Except.error ("Failed to get container information: " ++ m),
        [RemoteCall.getCall container_id])
    | InspectOutcome.found container =>
      match build_detailed_container_info fromisoformat now container with
      | Except.ok info => (Except.ok info, [RemoteCall.getCall container_id])
      | Except.error e =>
        (Except.error ("Failed to get container information: " ++ e),
          [RemoteCall.getCall container_id])

/-! ### Result cache (`context.py`) -/

/-- Embedding of `AppContext` (`context.py`): the two caches plus the connection
handle of the owned client manager. -/
structure AppContext where
  docker_client : Option Unit := none
  detailed_container_cache : PyDict DetailedContainerInfo := dempty
  basic_container_cache : PyDict ContainerInfo := dempty

/-- Embedding of `AppContext.cache_detailed_container` (lines 22-30): stores under
the given id, then under every name. -/
def AppContext.cache_detailed_container (s : AppContext)
    (container_id : String) (container_info : DetailedContainerInfo) :
    AppContext :=
  { s with
    detailed_container_cache :=
      container_info.names.foldl
        (fun cache name => dset cache name container_info)
        (dset s.detailed_container_cache container_id container_info) }

/-- Embedding of `AppContext.cache_basic_container` (lines 32-38): stores under the
record's id, then under every name. -/
def AppContext.cache_basic_container (s : AppContext)
    (container_info : ContainerInfo) : AppContext :=
  { s with
    basic_container_cache :=
      container_info.names.foldl
        (fun cache name => dset cache name container_info)
        (dset s.basic_container_cache container_info.id container_info) }

/-- Embedding of `AppContext.get_cached_detailed_container` (lines 40-45). -/
def AppContext.get_cached_detailed_container (s : AppContext)
    (container_id : String) : Option DetailedContainerInfo :=
  dget s.detailed_container_cache container_id

/-- Embedding of `AppContext.get_cached_basic_container` (lines 47-52). -/
def AppContext.get_cached_basic_container (s : AppContext)
    (container_id : String) : Option ContainerInfo :=
  dget s.basic_container_cache container_id

/-- Embedding of `AppContext.clear_container_cache` (lines 54-73).  The guard is
Python truthiness (`if container_id:`), so both `None` and the empty
string clear the caches entirely.  With a truthy key, each cache is
searched for the key; on a hit, the invoked key and the hit record's
names are popped from that cache. -/
def AppContext.clear_container_cache (s : AppContext)
    (container_id : Option String) : AppContext :=
  match container_id with
  | some cid =>
    if cid = "" then
      { s with
        detailed_container_cache := dempty
        basic_container_cache := dempty }
    else
      let s1 :=
        match dget s.detailed_container_cache cid with
        | some container =>
          { s with
            detailed_container_cache :=
              container.names.foldl (fun cache name => dpop cache name)
                (dpop s.detailed_container_cache cid) }
        | none => s
      match dget s1.basic_container_cache cid with
      | some basic_container =>
        { s1 with
          basic_container_cache :=
            basic_container.names.foldl (fun cache name => dpop cache name)
              (dpop s1.basic_container_cache cid) }
      | none => s1
  | none =>
    { s with
      detailed_container_cache := dempty
      basic_container_cache := dempty }

/-! ### Dictionary lemmas -/

theorem dget_dset {α : Type} (d : PyDict α) (k a : String) (v : α) :
    dget (dset d k v) a = if a = k then some v else dget d a := rfl

theorem dget_dpop {α : Type} (d : PyDict α) (k a : String) :
    dget (dpop d k) a = if a = k then none else dget d a := rfl

theorem dget_foldl_dset {α : Type} (names : List String) (d : PyDict α)
    (v : α) (a : String) (h : a ∈ names ∨ dget d a = some v) :
    dget (names.foldl (fun cache name => dset cache name v) d) a = some v := by
  induction names generalizing d with
  | nil =>
    rcases h with h | h
    · exact absurd h (List.not_mem_nil a)
    · exact h
  | cons n ns ih =>
    apply ih
    rcases h with h | h
    · rcases List.mem_cons.mp h with rfl | h
      · right
        simp [dget_dset]
      · left
        exact h
    · by_cases ha : a = n
      · right
        simp [dget_dset, ha]
      · right
        rw [dget_dset, if_neg ha]
        exact h

theorem dget_foldl_dpop {α : Type} (names : List String) (d : PyDict α)
    (a : String) (h : a ∈ names ∨ dget d a = none) :
    dget (names.foldl (fun cache name => dpop cache name) d) a = none := by
  induction names generalizing d with
  | nil =>
    rcases h with h | h
    · exact absurd h (List.not_mem_nil a)
    · exact h
  | cons n ns ih =>
    apply ih
    rcases h with h | h
    · rcases List.mem_cons.mp h with rfl | h
      · right
        simp [dget_dpop]
      · left
        exact h
    · by_cases ha : a = n
      · right
        simp [dget_dpop, ha]
      · right
        rw [dget_dpop, if_neg ha]
        exact h

/-! ### Concrete sample records -/

def sampleDatetime : PyDatetime := { wall := 1700000000, tz := some 0 }

def sampleBasic : ContainerInfo :=
  { id := "abc123"
    names := ["web"]
    image := "nginx"
    state := "running"
    created_at := sampleDatetime }

def sampleDetailed : DetailedContainerInfo :=
  { id := "abc123"
    names := ["web"]
    image := "nginx"
    state := "running"
    created_at := sampleDatetime
    image_id := "sha256:0"
    status := "running" }

def emptyCtx : AppContext := {}

/-! ### Cache claims -/

theorem clear_basic_of_hit (s : AppContext) (cid : String)
    (r : ContainerInfo) (a : String)
    (hget : dget s.basic_container_cache cid = some r)
    (ha : a = cid ∨ a ∈ r.names) :
    (s.clear_container_cache (some cid)).get_cached_basic_container a
      = none := by
  unfold AppContext.clear_container_cache AppContext.get_cached_basic_container
  by_cases hcid : cid = ""
  · simp only [hcid, if_pos rfl]
    rfl
  · simp only [hcid, if_neg, ite_false]
    rcases hd : dget s.detailed_container_cache cid with _ | c <;>
      simp only [hd] <;>
      · simp only [hget]
        apply dget_foldl_dpop
        rcases ha with rfl | ha
        · right
          simp [dget_dpop]
        · left
          exact ha

theorem clear_detailed_of_hit (s : AppContext) (cid : String)
    (r : DetailedContainerInfo) (a : String)
    (hget : dget s.detailed_container_cache cid = some r)
    (ha : a = cid ∨ a ∈ r.names) :
    (s.clear_container_cache (some cid)).get_cached_detailed_container a
      = none := by
  unfold AppContext.clear_container_cache AppContext.get_cached_detailed_container
  by_cases hcid : cid = ""
  · simp only [hcid, if_pos rfl]
    rfl
  · simp only [hcid, if_neg, ite_false, hget]
    have hpop :
        dget (r.names.foldl (fun cache name => dpop cache name)
          (dpop s.detailed_container_cache cid)) a = none := by
      apply dget_foldl_dpop
      rcases ha with rfl | ha
      · right
        simp [dget_dpop]
      · left
        exact ha
    rcases hb :
        dget ({ s with
          detailed_container_cache :=
            r.names.foldl (fun cache name => dpop cache name)
              (dpop s.detailed_container_cache cid)
          : AppContext }).basic_container_cache cid with _ | b <;>
      simp only [hb] <;> exact hpop

/-- C6: storing a record and then looking up any of its aliases (the
primary id or any of its names) returns the stored record, in the
summary cache and in the detail cache (the detail cache is keyed by
the id its caller passes, which is the record's own id). -/
theorem c6_store_then_lookup_alias :
    (∀ (s : AppContext) (record : ContainerInfo) (a : String),
        a = record.id ∨ a ∈ record.names →
        (s.cache_basic_container record).get_cached_basic_container a
          = some record) ∧
    (∀ (s : AppContext) (record : DetailedContainerInfo) (a : String),
        a = record.id ∨ a ∈ record.names →
        (s.cache_detailed_container record.id
            record).get_cached_detailed_container a = some record) := by
  constructor
  · intro s record a h
    unfold AppContext.cache_basic_container
      AppContext.get_cached_basic_container
    apply dget_foldl_dset
    rcases h with rfl | h
    · right
      simp [dget_dset]
    · left
      exact h
  · intro s record a h
    unfold AppContext.cache_detailed_container
      AppContext.get_cached_detailed_container
    apply dget_foldl_dset
    rcases h with rfl | h
    · right
      simp [dget_dset]
    · left
      exact h

theorem c6_store_then_lookup_alias_witness :
    (("web" : String) = sampleBasic.id ∨ "web" ∈ sampleBasic.names) ∧
    (emptyCtx.cache_basic_container sampleBasic).get_cached_basic_container
      "web" = some sampleBasic ∧
    (emptyCtx.cache_detailed_container sampleDetailed.id
        sampleDetailed).get_cached_detailed_container "abc123"
      = some sampleDetailed := by
  refine ⟨Or.inr (by decide), ?_, ?_⟩
  · exact c6_store_then_lookup_alias.1 emptyCtx sampleBasic "web"
      (Or.inr (by decide))
  · exact c6_store_then_lookup_alias.2 emptyCtx sampleDetailed "abc123"
      (Or.inl (by decide))

/-- C1 (counterexample): after storing the record with id `abc123` and
name `web` in both caches, evicting by the name alias `web` leaves the
record reachable under its id in both caches — `clear_container_cache`
pops the invoked key and the record's names, but not the record's id. -/
theorem c1_counterexample :
    ((((emptyCtx.cache_detailed_container sampleDetailed.id
          sampleDetailed).cache_basic_container
          sampleBasic).clear_container_cache
          (some "web")).get_cached_basic_container "abc123"
        = some sampleBasic) ∧
    ((((emptyCtx.cache_detailed_container sampleDetailed.id
          sampleDetailed).cache_basic_container
          sampleBasic).clear_container_cache
          (some "web")).get_cached_detailed_container "abc123"
        = some sampleDetailed) := by
  constructor <;> rfl

/-- C1 (amended): evicting by the record's *identifier* removes the
record under its id and all of its name aliases from both the summary
cache and the detail cache, so every alias then looks up to null;
evicting by a name alias is not guaranteed to unreach the id. -/
theorem c1_evict_by_id_removes_all_aliases :
    (∀ (s : AppContext) (record : ContainerInfo) (a : String),
        a = record.id ∨ a ∈ record.names →
        ((s.cache_basic_container record).clear_container_cache
            (some record.id)).get_cached_basic_container a = none) ∧
    (∀ (s : AppContext) (record : DetailedContainerInfo) (a : String),
        a = record.id ∨ a ∈ record.names →
        ((s.cache_detailed_container record.id
            record).clear_container_cache
            (some record.id)).get_cached_detailed_container a = none) := by
  constructor
  · intro s record a h
    apply clear_basic_of_hit _ _ record
    · unfold AppContext.cache_basic_container
      apply dget_foldl_dset
      right
      simp [dget_dset]
    · exact h
  · intro s record a h
    apply clear_detailed_of_hit _ _ record
    · unfold AppContext.cache_detailed_container
      apply dget_foldl_dset
      right
      simp [dget_dset]
    · exact h

theorem c1_evict_by_id_removes_all_aliases_witness :
    (("web" : String) = sampleBasic.id ∨ "web" ∈ sampleBasic.names) ∧
    ((emptyCtx.cache_basic_container sampleBasic).clear_container_cache
        (some sampleBasic.id)).get_cached_basic_container "web" = none ∧
    ((emptyCtx.cache_detailed_container sampleDetailed.id
        sampleDetailed).clear_container_cache
        (some sampleDetailed.id)).get_cached_detailed_container "abc123"
      = none := by
  refine ⟨Or.inr (by decide), ?_, ?_⟩
  · exact c1_evict_by_id_removes_all_aliases.1 emptyCtx sampleBasic "web"
      (Or.inr (by decide))
  · exact c1_evict_by_id_removes_all_aliases.2 emptyCtx sampleDetailed
      "abc123" (Or.inl (by decide))

/-- C9 (amended): evicting a *truthy* (non-empty) key that is present
in neither cache leaves the context exactly unchanged.  (The
empty-string key is falsy in Python, so `evict("")` clears both caches
entirely.) -/
theorem c9_evict_absent_key_noop :
    ∀ (s : AppContext) (k : String), k ≠ "" →
      s.get_cached_detailed_container k = none →
      s.get_cached_basic_container k = none →
      s.clear_container_cache (some k) = s := by
  intro s k hk h1 h2
  unfold AppContext.get_cached_detailed_container at h1
  unfold AppContext.get_cached_basic_container at h2
  unfold AppContext.clear_container_cache
  simp [hk, h1, h2]

theorem c9_evict_absent_key_noop_witness :
    (("ghost" : String) ≠ "") ∧
    emptyCtx.clear_container_cache (some "ghost") = emptyCtx :=
  ⟨by decide,
    c9_evict_absent_key_noop emptyCtx "ghost" (by decide) rfl rfl⟩

def cachedCtx : AppContext := emptyCtx.cache_basic_container sampleBasic

/-- C9 (counterexample): the key `""` is present in neither cache of
`cachedCtx`, yet evicting it removes the `abc123` entry — the guard
`if container_id:` treats the empty string like `None` and clears both
caches. -/
theorem c9_counterexample :
    cachedCtx.get_cached_detailed_container "" = none ∧
    cachedCtx.get_cached_basic_container "" = none ∧
    cachedCtx.get_cached_basic_container "abc123" = some sampleBasic ∧
    (cachedCtx.clear_container_cache
        (some "")).get_cached_basic_container "abc123" = none := by
  refine ⟨rfl, ?_, ?_, rfl⟩ <;> rfl

/-! ### Facade claims -/

def failParse : String → Option PyDatetime := fun _ => none

def nowSample : PyDatetime := { wall := 999, tz := some 0 }

def ghostDaemon : Daemon :=
  { inspect := fun _ => InspectOutcome.notFound
    listing := fun _ => Except.error "unused" }

def failingDaemon : Daemon :=
  { inspect := fun _ => InspectOutcome.failure "server error"
    listing := fun _ => Except.error "unused" }

/-- C7: `list_containers` and `get_container` invoked while
Disconnected (`self._client is None`) fail with the not-connected
`RuntimeError` and perform zero remote calls, for every daemon and
every argument. -/
theorem c7_disconnected_fails_without_remote_calls :
    ∀ (fromisoformat : String → Option PyDatetime) (now : PyDatetime)
      (daemon : Daemon) (params : Option ListContainersParams)
      (container_id : String),
      (list_containers fromisoformat now none daemon params).1
        = Except.error
            "Docker client is not connected. Call connect() first." ∧
      (list_containers fromisoformat now none daemon params).2 = [] ∧
      (get_container fromisoformat now none daemon container_id).1
        = Except.error "Docker client is not connected" ∧
      (get_container fromisoformat now none daemon container_id).2 = [] := by
  intro fromisoformat now daemon params container_id
  exact ⟨rfl, rfl, rfl, rfl⟩

/-- C8: when the daemon reports not-found for the inspected identifier,
`get_container` fails with the not-found error whose message contains
that identifier; any other daemon-side failure is rewrapped carrying
the daemon-provided message text. -/
theorem c8_not_found_and_remote_error_messages :
    ∀ (fromisoformat : String → Option PyDatetime) (now : PyDatetime)
      (daemon : Daemon) (container_id : String),
      (daemon.inspect container_id = InspectOutcome.notFound →
        (get_container fromisoformat now (some ()) daemon container_id).1
          = Except.error ("Container not found: " ++ container_id) ∧
        ∃ pre suf, "Container not found: " ++ container_id
          = pre ++ container_id ++ suf) ∧
      (∀ m, daemon.inspect container_id = InspectOutcome.failure m →
        (get_container fromisoformat now (some ()) daemon container_id).1
          = Except.error
              ("Failed to get container information: " ++ m)) := by
  intro fromisoformat now daemon container_id
  constructor
  · intro h
    constructor
    · simp [get_container, h]
    · exact ⟨"Container not found: ", "", by simp⟩
  · intro m h
    simp [get_container, h]

theorem c8_not_found_and_remote_error_messages_witness :
    ghostDaemon.inspect "ghost" = InspectOutcome.notFound ∧
    (get_container failParse nowSample (some ()) ghostDaemon "ghost").1
      = Except.error ("Container not found: " ++ "ghost") ∧
    failingDaemon.inspect "ghost" = InspectOutcome.failure "server error" ∧
    (get_container failParse nowSample (some ()) failingDaemon "ghost").1
      = Except.error
          ("Failed to get container information: " ++ "server error") := by
  refine ⟨rfl, ?_, rfl, ?_⟩
  · exact ((c8_not_found_and_remote_error_messages failParse nowSample
      ghostDaemon "ghost").1 rfl).1
  · exact (c8_not_found_and_remote_error_messages failParse nowSample
      failingDaemon "ghost").2 "server error" rfl

/-- C3 (code-bug evidence): `connect()` assigns `self._client =
docker.from_env()` *before* the liveness probe, so when the ping raises
the error is surfaced but the handle stays set: the facade reports
itself connected, a subsequent `connect()` is an immediate no-op (even
against a daemon that is still down), and a subsequent `get_container`
does not fail with the not-connected error but goes to the daemon.
The claim (and §4.4/§7 of the spec) say the facade remains
Disconnected after a failed connection attempt. -/
theorem c3_failed_probe_leaves_handle_set :
    connect none (ConnectAttempt.pingFailure "ping failed")
      = (some (), some "ping failed") ∧
    is_connected
      (connect none (ConnectAttempt.pingFailure "ping failed")).1 = true ∧
    connect (connect none (ConnectAttempt.pingFailure "ping failed")).1
      (ConnectAttempt.envFailure "daemon still down") = (some (), none) ∧
    (get_container failParse nowSample
        (connect none (ConnectAttempt.pingFailure "ping failed")).1
        ghostDaemon "ghost").1
      ≠ Except.error "Docker client is not connected" ∧
    (get_container failParse nowSample
        (connect none (ConnectAttempt.pingFailure "ping failed")).1
        ghostDaemon "ghost").2 = [RemoteCall.getCall "ghost"] := by
  refine ⟨rfl, rfl, rfl, ?_, rfl⟩
  intro h
  simp [get_container, connect, ghostDaemon] at h

def emptyRawContainer : RawContainer := { id := "abc123" }

/-- C2 (code-bug evidence): in the detail record built by
`get_container`, `started_at`/`finished_at` are computed with
`_parse_datetime_value` directly (lines 279-284), so an absent raw
state field yields the "now" fallback instead of null; and even the
summary path's `_parse_state_datetime` yields the "now" fallback (not
null) for a non-empty string that fails to parse.  The claim (and the
schema field documentation "null if never started") say null. -/
theorem c2_timestamps_get_now_fallback :
    (build_detailed_container_info failParse nowSample
        emptyRawContainer).map (fun r => (r.started_at, r.finished_at))
      = Except.ok (some nowSample, some nowSample) ∧
    parse_state_datetime failParse nowSample
        { started_at := some (RawTime.str "garbage") }
        StateTimeKey.started_at = some nowSample := by
  exact ⟨rfl, rfl⟩

/-! ### Timestamp normalizer claim -/

theorem dropWhile_single_head {r : List Char}
    (h1 : r.head? = some 'Z') (h2 : r.tail.head? ≠ some 'Z') :
    r.dropWhile (fun a => a == 'Z') = r.tail := by
  match r with
  | [] => simp at h1
  | c :: rest =>
    have hc : c = 'Z' := by simpa using h1
    subst hc
    match rest with
    | [] => rfl
    | c2 :: rest2 =>
      have hc2 : c2 ≠ 'Z' := by simpa using h2
      have hb : (c2 == 'Z') = false := by simpa using hc2
      simp [List.dropWhile, hb]

theorem pyRstrip_eq_pyDropLast (s : String)
    (h1 : pyEndsWithChar s 'Z' = true)
    (h2 : pyEndsWithChar (pyDropLast s) 'Z' = false) :
    pyRstrip s 'Z' = pyDropLast s := by
  unfold pyEndsWithChar at h1 h2
  simp only [decide_eq_true_eq] at h1
  simp only [decide_eq_false_iff_not] at h2
  unfold pyDropLast at h2 ⊢
  unfold pyRstrip
  have htail : s.data.reverse.tail.head? ≠ some 'Z' := by
    rw [List.tail_reverse_eq_reverse_dropLast]
    exact h2
  rw [dropWhile_single_head h1 htail]
  rw [List.tail_reverse_eq_reverse_dropLast, List.reverse_reverse]

/-- C5: for a string ending in `Z` whose second-to-last character is
not another `Z` (true of every valid ISO-8601 timestamp, whose zone
designator follows a digit), `_parse_iso_datetime` agrees with the
reference computation "drop the trailing `Z`, append `+00:00`, parse";
and whenever the parse of the rewritten `Z`-suffixed string fails, the
"now" fallback is returned instead of an error propagating. -/
theorem c5_z_suffix_matches_reference :
    ∀ (fromisoformat : String → Option PyDatetime) (now : PyDatetime)
      (s : String), pyEndsWithChar s 'Z' = true →
      (pyEndsWithChar (pyDropLast s) 'Z' = false →
        parse_iso_datetime fromisoformat now s
          = (fromisoformat (pyDropLast s ++ "+00:00")).getD now) ∧
      (fromisoformat (pyRstrip s 'Z' ++ "+00:00") = none →
        parse_iso_datetime fromisoformat now s = now) := by
  intro fromisoformat now s hZ
  constructor
  · intro hZZ
    unfold parse_iso_datetime
    rw [if_pos hZ, pyRstrip_eq_pyDropLast s hZ hZZ]
    cases h : fromisoformat (pyDropLast s ++ "+00:00") <;> simp [h]
  · intro hnone
    unfold parse_iso_datetime
    rw [if_pos hZ, hnone]

def sampleParse : String → Option PyDatetime :=
  fun t =>
    if t = "2023-11-14T22:13:20+00:00" then
      some { wall := 1700000000, tz := some 0 }
    else
      none

theorem c5_z_suffix_matches_reference_witness :
    pyEndsWithChar "2023-11-14T22:13:20Z" 'Z' = true ∧
    pyEndsWithChar (pyDropLast "2023-11-14T22:13:20Z") 'Z' = false ∧
    parse_iso_datetime sampleParse nowSample "2023-11-14T22:13:20Z"
      = (sampleParse
          (pyDropLast "2023-11-14T22:13:20Z" ++ "+00:00")).getD nowSample :=
  ⟨by decide, by decide,
    (c5_z_suffix_matches_reference sampleParse nowSample
      "2023-11-14T22:13:20Z" (by decide)).1 (by decide)⟩

/-! ### Port parser claim -/

/-- Holds (as a boolean) when a raw `Type` value would not make
`DockerPortType(value)` raise. -/
def validPortTypeValue : Option String → Bool
  | none => true
  | some s => (DockerPortType.ofString? s).isSome

/-- Reference per-entry conversion of the amended C10: `PrivatePort`
defaults to `0`, `Type` defaults to `tcp`, `PublicPort` and `IP` pass
through (null exactly when the key is absent). -/
def portOfRaw (p : RawPort) : ContainerPort :=
  { private_port := p.private_port.getD 0
    public_port := p.public_port
    type :=
      match p.type with
      | none => DockerPortType.tcp
      | some s => (DockerPortType.ofString? s).getD DockerPortType.tcp
    ip := p.ip }

def badPortEntry : RawPort := { type := some "sctp" }

/-- C10 (counterexample): for the one-entry list whose `Type` value is
`sctp`, `_parse_ports` does not return a list at all — the
`DockerPortType` enum admits only `tcp` and `udp`, so the conversion
raises `ValueError` instead of producing a same-length list. -/
theorem c10_counterexample :
    parse_ports [badPortEntry] = Except.error "ValueError" := rfl

/-- C10 (amended): for every list of raw port entries whose `Type`
values, when present, are valid port types, `_parse_ports` succeeds
with the pointwise conversion: same length, the i-th output derived
from the i-th input, `private_port = 0` when `PrivatePort` is absent,
`type = tcp` when `Type` is absent, and `public_port`/`ip` null exactly
when their keys are absent (they pass through unchanged). -/
theorem c10_parse_ports_pointwise :
    ∀ ports_data : List RawPort,
      (∀ p ∈ ports_data, validPortTypeValue p.type = true) →
      parse_ports ports_data = Except.ok (ports_data.map portOfRaw) ∧
      (ports_data.map portOfRaw).length = ports_data.length ∧
      ∀ i : Nat, (ports_data.map portOfRaw)[i]?
        = (ports_data[i]?).map portOfRaw := by
  intro ports_data hval
  refine ⟨?_, by simp, fun i => by simp⟩
  induction ports_data with
  | nil => rfl
  | cons p rest ih =>
    have hp : validPortTypeValue p.type = true :=
      hval p (List.mem_cons_self p rest)
    have hrest := ih (fun q hq => hval q (List.mem_cons_of_mem p hq))
    unfold parse_ports
    rw [hrest]
    cases ht : p.type with
    | none => simp [portOfRaw, ht]
    | some s =>
      unfold validPortTypeValue at hp
      rw [ht] at hp
      rcases ho : DockerPortType.ofString? s with _ | t
      · simp [ho] at hp
      · simp [portOfRaw, ht, ho]

theorem c10_parse_ports_pointwise_witness :
    (∀ p ∈ [({} : RawPort),
        { ip := some "0.0.0.0", private_port := some 80,
          public_port := some 8080, type := some "udp" }],
      validPortTypeValue p.type = true) ∧
    parse_ports
        [({} : RawPort),
          { ip := some "0.0.0.0", private_port := some 80,
            public_port := some 8080, type := some "udp" }]
      = Except.ok
          ([({} : RawPort),
            { ip := some "0.0.0.0", private_port := some 80,
              public_port := some 8080, type := some "udp" }].map
            portOfRaw) :=
  ⟨by decide,
    (c10_parse_ports_pointwise
      [({} : RawPort),
        { ip := some "0.0.0.0", private_port := some 80,
          public_port := some 8080, type := some "udp" }]
      (by decide)).1⟩

/-! ### Filter builder claim -/

theorem to_docker_filters_loop_append (a b : List (String × DumpValue)) :
    to_docker_filters_loop (a ++ b)
      = to_docker_filters_loop a ++ to_docker_filters_loop b := by
  induction a with
  | nil => rfl
  | cons hd tl ih =>
    obtain ⟨fn, fv⟩ := hd
    show to_docker_filters_loop ((fn, fv) :: (tl ++ b)) = _
    simp [to_docker_filters_loop, ih, List.append_assoc]

/-- C4: the filter builder emits exactly the non-null fields, in field
order; `status` is emitted as the enum's underlying string value (a
scalar), `label` always as a list (a lone string gets wrapped); a
dumped pair whose name is not a known daemon filter key is silently
skipped by the loop; and the request with only `status = exited` builds
to exactly one `status` entry. -/
theorem c4_filter_builder_exact_entries :
    (∀ f : ListContainersFilters,
      f.to_docker_filters =
        (match f.exited with
          | some n => [("exited", DockerFilterValue.intVal n)]
          | none => []) ++
        (match f.status with
          | some st => [("status", DockerFilterValue.strVal st.value)]
          | none => []) ++
        (match f.label with
          | some (LabelFilter.single s) =>
              [("label", DockerFilterValue.listVal [s])]
          | some (LabelFilter.multi l) =>
              [("label", DockerFilterValue.listVal l)]
          | none => []) ++
        (match f.id with
          | some s => [("id", DockerFilterValue.strVal s)]
          | none => []) ++
        (match f.name with
          | some s => [("name", DockerFilterValue.strVal s)]
          | none => []) ++
        (match f.ancestor with
          | some s => [("ancestor", DockerFilterValue.strVal s)]
          | none => []) ++
        (match f.before with
          | some s => [("before", DockerFilterValue.strVal s)]
          | none => []) ++
        (match f.since with
          | some s => [("since", DockerFilterValue.strVal s)]
          | none => [])) ∧
    (∀ (field_name : String) (v : DumpValue)
        (rest : List (String × DumpValue)),
      docker_filter_key? field_name = none →
      to_docker_filters_loop ((field_name, v) :: rest)
        = to_docker_filters_loop rest) ∧
    ListContainersFilters.to_docker_filters
        { status := some DockerContainerState.exited }
      = [("status", DockerFilterValue.strVal "exited")] := by
  refine ⟨?_, ?_, rfl⟩
  · intro f
    obtain ⟨ex, st, lb, idf, nm, an, bf, sc⟩ := f
    show to_docker_filters_loop _ = _
    unfold ListContainersFilters.model_dump
    dsimp only
    rw [to_docker_filters_loop_append, to_docker_filters_loop_append,
      to_docker_filters_loop_append, to_docker_filters_loop_append,
      to_docker_filters_loop_append, to_docker_filters_loop_append,
      to_docker_filters_loop_append]
    have e1 : to_docker_filters_loop
        (match ex with
          | some n => [("exited", DumpValue.intVal n)]
          | none => [])
        = (match ex with
          | some n => [("exited", DockerFilterValue.intVal n)]
          | none => []) := by
      cases ex <;> rfl
    have e2 : to_docker_filters_loop
        (match st with
          | some v => [("status", DumpValue.statusVal v)]
          | none => [])
        = (match st with
          | some v => [("status", DockerFilterValue.strVal v.value)]
          | none => []) := by
      cases st <;> rfl
    have e3 : to_docker_filters_loop
        (match lb with
          | some (LabelFilter.single s) => [("label", DumpValue.strVal s)]
          | some (LabelFilter.multi l) => [("label", DumpValue.listVal l)]
          | none => [])
        = (match lb with
          | some (LabelFilter.single s) =>
              [("label", DockerFilterValue.listVal [s])]
          | some (LabelFilter.multi l) =>
              [("label", DockerFilterValue.listVal l)]
          | none => []) := by
      rcases lb with _ | v
      · rfl
      · cases v <;> rfl
    have e4 : to_docker_filters_loop
        (match idf with
          | some s => [("id", DumpValue.strVal s)]
          | none => [])
        = (match idf with
          | some s => [("id", DockerFilterValue.strVal s)]
          | none => []) := by
      cases idf <;> rfl
    have e5 : to_docker_filters_loop
        (match nm with
          | some s => [("name", DumpValue.strVal s)]
          | none => [])
        = (match nm with
          | some s => [("name", DockerFilterValue.strVal s)]
          | none => []) := by
      cases nm <;> rfl
    have e6 : to_docker_filters_loop
        (match an with
          | some s => [("ancestor", DumpValue.strVal s)]
          | none => [])
        = (match an with
          | some s => [("ancestor", DockerFilterValue.strVal s)]
          | none => []) := by
      cases an <;> rfl
    have e7 : to_docker_filters_loop
        (match bf with
          | some s => [("before", DumpValue.strVal s)]
          | none => [])
        = (match bf with
          | some s => [("before", DockerFilterValue.strVal s)]
          | none => []) := by
      cases bf <;> rfl
    have e8 : to_docker_filters_loop
        (match sc with
          | some s => [("since", DumpValue.strVal s)]
          | none => [])
        = (match sc with
          | some s => [("since", DockerFilterValue.strVal s)]
          | none => []) := by
      cases sc <;> rfl
    rw [e1, e2, e3, e4, e5, e6, e7, e8]
  · intro field_name v rest h
    simp [to_docker_filters_loop, to_docker_filters_entry, h]

theorem c4_filter_builder_exact_entries_witness :
    docker_filter_key? "bogus" = none ∧
    to_docker_filters_loop [("bogus", DumpValue.strVal "x")] = [] ∧
    ListContainersFilters.to_docker_filters
        { label := some (LabelFilter.single "env=prod") }
      = [("label", DockerFilterValue.listVal ["env=prod"])] := by
  refine ⟨rfl, ?_, ?_⟩
  · exact c4_filter_builder_exact_entries.2.1 "bogus"
      (DumpValue.strVal "x") [] rfl
  · exact c4_filter_builder_exact_entries.1
      { label := some (LabelFilter.single "env=prod") }

end DockerBridge
